import Mathlib

set_option linter.unusedVariables false
set_option linter.unusedTactic false
set_option linter.unnecessarySeqFocus false

/-!
Shallow embedding of the PLS World News carousel component
(`PLSCarousel`, carousel source file of the repository).

The component is a single-threaded event-driven state machine.  We model
the mutable instance state (`this.currentSlide`, `this.isPlaying`,
`this.autoplayTimer`, `this.isTransitioning`, generated controls, the
`active` class marking, and the scheduled transition-completion callback)
as an explicit record, DOM event dispatches as an appended event log, and
the single `setTimeout(..., 500)` completion callback of
`slideToSlide` / `fadeToSlide` as a `pending` scheduled task that a
`settle` step consumes (the "completion callback has run" moment).
Styling-only DOM writes (transforms, opacity, cursor, button labels) have
no bearing on the claims and are not tracked.
-/

namespace PLSCarousel

/-- Carousel options with the constructor's fallback defaults
(source lines 9-19). -/
structure Options where
  autoplay : Bool := true
  autoplayDelay : Nat := 5000
  loop : Bool := true
  showDots : Bool := true
  showArrows : Bool := true
  swipe : Bool := true
  fadeEffect : Bool := false
  pauseOnHover : Bool := true
deriving DecidableEq, Repr

/-- The two DOM notifications the component dispatches:
`slideChange` (the "slide-change-requested" notification, with
`detail.from` / `detail.to`, source lines 329-335) and `slideChanged`
(the "slide-changed" notification with `detail.currentSlide`,
source lines 429-434). -/
inductive Event where
  | slideChange (fromIdx toIdx : Int)
  | slideChanged (idx : Int)
deriving DecidableEq, Repr

/-- The transition-completion callback scheduled by `slideToSlide` /
`fadeToSlide`: `setTimeout(() => ... this.updateSlideState(index), 500)`
(source lines 388-396 and 406-409). -/
structure Scheduled where
  target : Int
  delayMs : Nat
deriving DecidableEq, Repr

/-- The mutable state of one `PLSCarousel` instance.  `slideCount` is
`this.slides.length` (fixed after `setupCarousel`); `autoplayTimer` is
whether the recurring `setInterval` handle is currently armed;
`activeSlide` is the slide currently carrying the `active` class (if
any); `pending` is the scheduled transition-completion callback;
`events` is the log of dispatched notifications, oldest first;
`arrowsCreated` / `dotsCreated` / `playPauseCreated` record which
controls `createControls` generated; `setSlideCalls` counts executions
of `setSlide`. -/
structure Carousel where
  slideCount : Nat
  options : Options
  currentSlide : Int
  isPlaying : Bool
  autoplayTimer : Bool
  isTransitioning : Bool
  pending : Option Scheduled
  activeSlide : Option Int
  events : List Event
  arrowsCreated : Bool
  dotsCreated : Bool
  playPauseCreated : Bool
  setSlideCalls : Nat
deriving DecidableEq, Repr

/-- Boundary resolution inside `goToSlide` (source lines 314-319):
`if (index >= slideCount) index = loop ? 0 : slideCount - 1;
else if (index < 0) index = loop ? slideCount - 1 : 0;`. -/
def resolveIndex (loop : Bool) (slideCount : Nat) (index : Int) : Int :=
  if index ≥ (slideCount : Int) then
    if loop then 0 else (slideCount : Int) - 1
  else if index < 0 then
    if loop then (slideCount : Int) - 1 else 0
  else index

/-- `setSlide(index)` (source lines 344-367): marks the slide active,
updates dots, sets `currentSlide`, applies the transform, and clears
`isTransitioning`.  Dispatches no event. -/
def setSlide (s : Carousel) (index : Int) : Carousel :=
  { s with
      activeSlide := some index
      currentSlide := index
      isTransitioning := false
      setSlideCalls := s.setSlideCalls + 1 }

/-- `updateSlideState(index)` (source lines 412-435): applies settled
state (active marking, `currentSlide`, clears `isTransitioning`) and
dispatches the `slideChanged` notification. -/
def updateSlideState (s : Carousel) (index : Int) : Carousel :=
  { s with
      activeSlide := some index
      currentSlide := index
      isTransitioning := false
      events := s.events ++ [Event.slideChanged index] }

/-- `goToSlide(index, animate = true)` (source lines 309-342).
Returns unchanged if `isTransitioning` or `index === currentSlide`
(the guard runs BEFORE boundary resolution); otherwise resolves the
index, and either applies `setSlide` directly (`animate = false`) or
sets `isTransitioning`, dispatches `slideChange {from, to}`, and hands
off to `fadeToSlide` / `slideToSlide`, both of which schedule
`updateSlideState(index)` after the fixed 500 ms duration — modelled as
`pending := some ⟨index, 500⟩`. -/
def goToSlide (s : Carousel) (index : Int) (animate : Bool := true) : Carousel :=
  if s.isTransitioning = true ∨ index = s.currentSlide then s
  else
    let index := resolveIndex s.options.loop s.slideCount index
    if animate = false then setSlide s index
    else
      { s with
          isTransitioning := true
          events := s.events ++ [Event.slideChange s.currentSlide index]
          pending := some ⟨index, 500⟩ }

/-- The transition-completion callback firing: `setTimeout` elapses and
`updateSlideState(index)` runs (source lines 395 / 408).  When no
callback is outstanding nothing happens. -/
def settle (s : Carousel) : Carousel :=
  match s.pending with
  | some sch => updateSlideState { s with pending := none } sch.target
  | none => s

/-- `nextSlide()` (source lines 437-440). -/
def nextSlide (s : Carousel) : Carousel :=
  goToSlide s (s.currentSlide + 1)

/-- `prevSlide()` (source lines 442-445). -/
def prevSlide (s : Carousel) : Carousel :=
  goToSlide s (s.currentSlide - 1)

/-- `pauseAutoplay()` (source lines 464-474): clears the interval if
armed (idempotent), updates the button label (untracked).  Does not
touch `isPlaying`. -/
def pauseAutoplay (s : Carousel) : Carousel :=
  { s with autoplayTimer := false }

/-- `startAutoplay()` (source lines 447-462): no-op unless
`options.autoplay` and more than one slide; otherwise cancels any
existing timer, arms the recurring timer, and sets `isPlaying := true`. -/
def startAutoplay (s : Carousel) : Carousel :=
  if s.options.autoplay = false ∨ s.slideCount ≤ 1 then s
  else { pauseAutoplay s with autoplayTimer := true, isPlaying := true }

/-- `toggleAutoplay()` (source lines 476-484). -/
def toggleAutoplay (s : Carousel) : Carousel :=
  if s.isPlaying then pauseAutoplay { s with isPlaying := false }
  else startAutoplay { s with isPlaying := true }

/-- The `mouseenter` handler (source lines 183-185), bound only when
`pauseOnHover` is set. -/
def hoverEnter (s : Carousel) : Carousel :=
  if s.options.pauseOnHover then pauseAutoplay s else s

/-- The `mouseleave` hover handler (source lines 187-191), bound only
when `pauseOnHover` is set: restarts autoplay only if `isPlaying`. -/
def hoverLeave (s : Carousel) : Carousel :=
  if s.options.pauseOnHover then
    if s.isPlaying then startAutoplay s else s
  else s

/-- The `visibilitychange` handler when the page becomes hidden
(source lines 200-202). -/
def visibilityHidden (s : Carousel) : Carousel :=
  pauseAutoplay s

/-- The `visibilitychange` handler when the page becomes visible again
(source lines 203-205). -/
def visibilityShown (s : Carousel) : Carousel :=
  if s.isPlaying then startAutoplay s else s

/-- `handleTouchStart` (source lines 216-222): records coordinates and
suspends autoplay. -/
def touchStart (s : Carousel) : Carousel :=
  pauseAutoplay s

/-- `handleTouchEnd` (source lines 240-261) for a completed touch
sequence whose recorded deltas are `deltaX = endX - startX` and
`deltaY = endY - startY`: commits a directional navigation iff
`|deltaX| > |deltaY| && |deltaX| > 50` (`deltaX > 0` → `prevSlide`,
else `nextSlide`), then restarts autoplay if `isPlaying`. -/
def touchRelease (s : Carousel) (deltaX deltaY : Int) : Carousel :=
  let s :=
    if deltaX.natAbs > deltaY.natAbs ∧ deltaX.natAbs > 50 then
      if deltaX > 0 then prevSlide s else nextSlide s
    else s
  if s.isPlaying then startAutoplay s else s

/-- The `mouseup` drag handler (source lines 285-301): computes only
`deltaX = endX - startX` — the vertical coordinates recorded by
`mousemove` are never read here, so there is no vertical-dominance
check — and commits a navigation iff `|deltaX| > 50`.  Unlike the touch
path it does not restart autoplay. -/
def mouseRelease (s : Carousel) (deltaX _deltaY : Int) : Carousel :=
  if deltaX.natAbs > 50 then
    if deltaX > 0 then prevSlide s else nextSlide s
  else s

/-- `createControls()` (source lines 73-88): returns immediately when
`slides.length <= 1`; otherwise generates arrows when `showArrows`,
dots when `showDots`, and the play/pause button, which
`createPlayPauseButton` itself skips when `autoplay` is off
(source line 125). -/
def createControls (s : Carousel) : Carousel :=
  if s.slideCount ≤ 1 then s
  else
    { s with
        arrowsCreated := s.options.showArrows
        dotsCreated := s.options.showDots
        playPauseCreated := s.options.autoplay }

/-- The constructor state before `init()` runs (source lines 7-28):
`currentSlide = 0`, `isPlaying = options.autoplay`, no timer, not
transitioning, no controls, nothing dispatched, no slide marked active. -/
def mkState (slideCount : Nat) (options : Options) : Carousel :=
  { slideCount := slideCount
    options := options
    currentSlide := 0
    isPlaying := options.autoplay
    autoplayTimer := false
    isTransitioning := false
    pending := none
    activeSlide := none
    events := []
    arrowsCreated := false
    dotsCreated := false
    playPauseCreated := false
    setSlideCalls := 0 }

/-- `new PLSCarousel(element, options)` followed by `init()`
(source lines 30-43): `setupCarousel` (DOM structure only),
`createControls`, `bindEvents` (listener wiring only), `startAutoplay`
when `options.autoplay`, then the "Initialize first slide" call
`goToSlide(0, false)`. -/
def mkCarousel (slideCount : Nat) (options : Options) : Carousel :=
  let s := createControls (mkState slideCount options)
  let s := if options.autoplay then startAutoplay s else s
  goToSlide s 0 false

/-- Every event-driven entry point into the instance, as visible from
the listeners `bindEvents` / `bindSwipeEvents` install and the public
surface: arrow clicks and keyboard arrows (`nextSlide` / `prevSlide`),
dot clicks (`goToSlide`), the autoplay tick (`setInterval` firing
`nextSlide`, source line 452), the transition-completion callback
(`settle`), the play/pause button and spacebar (`toggleAutoplay`),
hover, visibility changes, and the gesture handlers. -/
inductive Act where
  | next
  | prev
  | goTo (index : Int)
  | autoplayTick
  | settleTransition
  | toggle
  | hoverIn
  | hoverOut
  | visHidden
  | visShown
  | touchDown
  | touchUp (deltaX deltaY : Int)
  | mouseUp (deltaX deltaY : Int)
deriving DecidableEq, Repr

/-- Dispatch of one event-driven entry.  The autoplay tick only fires
while the interval is armed; the swipe handlers exist only when
`options.swipe` is set (source line 195). -/
def applyAct (s : Carousel) : Act → Carousel
  | Act.next => nextSlide s
  | Act.prev => prevSlide s
  | Act.goTo i => goToSlide s i
  | Act.autoplayTick => if s.autoplayTimer then nextSlide s else s
  | Act.settleTransition => settle s
  | Act.toggle => toggleAutoplay s
  | Act.hoverIn => hoverEnter s
  | Act.hoverOut => hoverLeave s
  | Act.visHidden => visibilityHidden s
  | Act.visShown => visibilityShown s
  | Act.touchDown => if s.options.swipe then touchStart s else s
  | Act.touchUp dx dy => if s.options.swipe then touchRelease s dx dy else s
  | Act.mouseUp dx dy => if s.options.swipe then mouseRelease s dx dy else s

/-- States reachable from `s0` by any sequence of event-driven entries. -/
inductive Reachable (s0 : Carousel) : Carousel → Prop
  | refl : Reachable s0 s0
  | step {s : Carousel} (a : Act) : Reachable s0 s → Reachable s0 (applyAct s a)

/-- One settled navigation round: `nextSlide()` issued from a settled
state, followed by the transition-completion callback. -/
def stepNext (s : Carousel) : Carousel :=
  settle (nextSlide s)

/-- Iterating `stepNext`: `next()` called `k` times, each call issued
after the previous transition has settled. -/
def runNext (s : Carousel) : Nat → Carousel
  | 0 => s
  | k + 1 => stepNext (runNext s k)

/-- The settled index observed after each of the `k` rounds. -/
def settledTrace (s : Carousel) (k : Nat) : List Int :=
  (List.range k).map (fun j => (runNext s (j + 1)).currentSlide)

/-- The fixed transition duration used by both strategies
(`setTimeout(..., 500)`, source lines 396 and 409). -/
def transitionDurationMs : Nat := 500

end PLSCarousel


namespace PLSCarousel

/-! Basic lemmas about the navigation entry point. -/

theorem goToSlide_of_transitioning (s : Carousel) (i : Int) (a : Bool)
    (h : s.isTransitioning = true) : goToSlide s i a = s := by
  simp [goToSlide, h]

theorem goToSlide_self (s : Carousel) (a : Bool) :
    goToSlide s s.currentSlide a = s := by
  simp [goToSlide]

theorem goToSlide_animate_eq (s : Carousel) (i : Int)
    (ht : s.isTransitioning = false) (hi : i ≠ s.currentSlide) :
    goToSlide s i =
      { s with
          isTransitioning := true
          events := s.events ++
            [Event.slideChange s.currentSlide
              (resolveIndex s.options.loop s.slideCount i)]
          pending := some ⟨resolveIndex s.options.loop s.slideCount i, 500⟩ } := by
  simp [goToSlide, ht, hi]

theorem resolveIndex_range (loop : Bool) (n : Nat) (i : Int) (hn : 0 < n) :
    0 ≤ resolveIndex loop n i ∧ resolveIndex loop n i < (n : Int) := by
  unfold resolveIndex
  split_ifs <;> omega

end PLSCarousel

namespace PLSCarousel

/-- Claim C4: calling `goTo(targetIndex)` with `targetIndex` equal to
`currentIndex` is a complete no-op, animated or not: the state is
returned unchanged, so no transition begins, `isTransitioning` keeps its
value (in particular stays false), `currentSlide` is unchanged, and
neither the `slideChange` nor the `slideChanged` notification is
dispatched. -/
theorem goTo_currentIndex_noop (s : Carousel) (animate : Bool) :
    goToSlide s s.currentSlide animate = s ∧
    (goToSlide s s.currentSlide animate).events = s.events ∧
    (goToSlide s s.currentSlide animate).isTransitioning = s.isTransitioning := by
  simp [goToSlide]

/-- Claim C2: boundary policy of `goToSlide` for a carousel with
`slideCount > 0` holding the index invariant and not mid-transition.
A target at or past `slideCount` resolves to 0 under `loop`, else to
`slideCount - 1`; a negative target resolves to `slideCount - 1` under
`loop`, else to 0; an in-range target distinct from the current index
is used unchanged.  The resolved index is what the transition is
scheduled toward (the `pending` completion callback's target). -/
theorem goTo_boundary_policy (s : Carousel) (t : Int)
    (hn : 0 < s.slideCount) (ht : s.isTransitioning = false)
    (hc0 : 0 ≤ s.currentSlide) (hc1 : s.currentSlide < (s.slideCount : Int)) :
    ((s.slideCount : Int) ≤ t →
      (goToSlide s t).pending =
        some ⟨if s.options.loop then 0 else (s.slideCount : Int) - 1, 500⟩) ∧
    (t < 0 →
      (goToSlide s t).pending =
        some ⟨if s.options.loop then (s.slideCount : Int) - 1 else 0, 500⟩) ∧
    (0 ≤ t → t < (s.slideCount : Int) → t ≠ s.currentSlide →
      (goToSlide s t).pending = some ⟨t, 500⟩) := by
  refine ⟨fun hge => ?_, fun hlt => ?_, fun h0 h1 hne => ?_⟩
  · rw [goToSlide_animate_eq s t ht (by omega)]
    simp only [resolveIndex]
    rw [if_pos (by omega)]
  · rw [goToSlide_animate_eq s t ht (by omega)]
    simp only [resolveIndex]
    rw [if_neg (by omega), if_pos (by omega)]
  · rw [goToSlide_animate_eq s t ht hne]
    simp only [resolveIndex]
    rw [if_neg (by omega), if_neg (by omega)]

/-- Witness for C2: on a freshly constructed 3-slide carousel with the
default (looping) options, requesting slide 5 resolves to slide 0 and
requesting slide -1 resolves to slide 2. -/
theorem goTo_boundary_policy_witness :
    (goToSlide (mkCarousel 3 {}) 5).pending = some ⟨0, 500⟩ ∧
    (goToSlide (mkCarousel 3 {}) (-1)).pending = some ⟨2, 500⟩ := by
  constructor
  · exact ((goTo_boundary_policy (mkCarousel 3 {}) 5 (by decide) (by decide)
      (by decide) (by decide)).1 (by decide)).trans (by decide)
  · exact ((goTo_boundary_policy (mkCarousel 3 {}) (-1) (by decide) (by decide)
      (by decide) (by decide)).2.1 (by decide)).trans (by decide)



/-! The autoplay-timer operations and the hover/visibility/touch-start
handlers only ever touch `autoplayTimer` and `isPlaying`, and
`createControls` only the generated-control markers; every other field
is preserved.  Projection lemmas used throughout. -/

@[simp] theorem startAutoplay_currentSlide (s : Carousel) :
    (startAutoplay s).currentSlide = s.currentSlide := by
  unfold startAutoplay pauseAutoplay
  (try split_ifs) <;> rfl

@[simp] theorem startAutoplay_pending (s : Carousel) :
    (startAutoplay s).pending = s.pending := by
  unfold startAutoplay pauseAutoplay
  (try split_ifs) <;> rfl

@[simp] theorem startAutoplay_isTransitioning (s : Carousel) :
    (startAutoplay s).isTransitioning = s.isTransitioning := by
  unfold startAutoplay pauseAutoplay
  (try split_ifs) <;> rfl

@[simp] theorem startAutoplay_events (s : Carousel) :
    (startAutoplay s).events = s.events := by
  unfold startAutoplay pauseAutoplay
  (try split_ifs) <;> rfl

@[simp] theorem startAutoplay_slideCount (s : Carousel) :
    (startAutoplay s).slideCount = s.slideCount := by
  unfold startAutoplay pauseAutoplay
  (try split_ifs) <;> rfl

@[simp] theorem startAutoplay_options (s : Carousel) :
    (startAutoplay s).options = s.options := by
  unfold startAutoplay pauseAutoplay
  (try split_ifs) <;> rfl

@[simp] theorem startAutoplay_activeSlide (s : Carousel) :
    (startAutoplay s).activeSlide = s.activeSlide := by
  unfold startAutoplay pauseAutoplay
  (try split_ifs) <;> rfl

@[simp] theorem startAutoplay_setSlideCalls (s : Carousel) :
    (startAutoplay s).setSlideCalls = s.setSlideCalls := by
  unfold startAutoplay pauseAutoplay
  (try split_ifs) <;> rfl

@[simp] theorem pauseAutoplay_currentSlide (s : Carousel) :
    (pauseAutoplay s).currentSlide = s.currentSlide := by
  unfold pauseAutoplay
  (try split_ifs) <;> rfl

@[simp] theorem pauseAutoplay_pending (s : Carousel) :
    (pauseAutoplay s).pending = s.pending := by
  unfold pauseAutoplay
  (try split_ifs) <;> rfl

@[simp] theorem pauseAutoplay_isTransitioning (s : Carousel) :
    (pauseAutoplay s).isTransitioning = s.isTransitioning := by
  unfold pauseAutoplay
  (try split_ifs) <;> rfl

@[simp] theorem pauseAutoplay_events (s : Carousel) :
    (pauseAutoplay s).events = s.events := by
  unfold pauseAutoplay
  (try split_ifs) <;> rfl

@[simp] theorem pauseAutoplay_slideCount (s : Carousel) :
    (pauseAutoplay s).slideCount = s.slideCount := by
  unfold pauseAutoplay
  (try split_ifs) <;> rfl

@[simp] theorem pauseAutoplay_options (s : Carousel) :
    (pauseAutoplay s).options = s.options := by
  unfold pauseAutoplay
  (try split_ifs) <;> rfl

@[simp] theorem pauseAutoplay_activeSlide (s : Carousel) :
    (pauseAutoplay s).activeSlide = s.activeSlide := by
  unfold pauseAutoplay
  (try split_ifs) <;> rfl

@[simp] theorem pauseAutoplay_setSlideCalls (s : Carousel) :
    (pauseAutoplay s).setSlideCalls = s.setSlideCalls := by
  unfold pauseAutoplay
  (try split_ifs) <;> rfl

@[simp] theorem toggleAutoplay_currentSlide (s : Carousel) :
    (toggleAutoplay s).currentSlide = s.currentSlide := by
  unfold toggleAutoplay startAutoplay pauseAutoplay
  (try split_ifs) <;> rfl

@[simp] theorem toggleAutoplay_pending (s : Carousel) :
    (toggleAutoplay s).pending = s.pending := by
  unfold toggleAutoplay startAutoplay pauseAutoplay
  (try split_ifs) <;> rfl

@[simp] theorem toggleAutoplay_isTransitioning (s : Carousel) :
    (toggleAutoplay s).isTransitioning = s.isTransitioning := by
  unfold toggleAutoplay startAutoplay pauseAutoplay
  (try split_ifs) <;> rfl

@[simp] theorem toggleAutoplay_events (s : Carousel) :
    (toggleAutoplay s).events = s.events := by
  unfold toggleAutoplay startAutoplay pauseAutoplay
  (try split_ifs) <;> rfl

@[simp] theorem toggleAutoplay_slideCount (s : Carousel) :
    (toggleAutoplay s).slideCount = s.slideCount := by
  unfold toggleAutoplay startAutoplay pauseAutoplay
  (try split_ifs) <;> rfl

@[simp] theorem toggleAutoplay_options (s : Carousel) :
    (toggleAutoplay s).options = s.options := by
  unfold toggleAutoplay startAutoplay pauseAutoplay
  (try split_ifs) <;> rfl

@[simp] theorem toggleAutoplay_activeSlide (s : Carousel) :
    (toggleAutoplay s).activeSlide = s.activeSlide := by
  unfold toggleAutoplay startAutoplay pauseAutoplay
  (try split_ifs) <;> rfl

@[simp] theorem toggleAutoplay_setSlideCalls (s : Carousel) :
    (toggleAutoplay s).setSlideCalls = s.setSlideCalls := by
  unfold toggleAutoplay startAutoplay pauseAutoplay
  (try split_ifs) <;> rfl

@[simp] theorem hoverEnter_currentSlide (s : Carousel) :
    (hoverEnter s).currentSlide = s.currentSlide := by
  unfold hoverEnter pauseAutoplay
  (try split_ifs) <;> rfl

@[simp] theorem hoverEnter_pending (s : Carousel) :
    (hoverEnter s).pending = s.pending := by
  unfold hoverEnter pauseAutoplay
  (try split_ifs) <;> rfl

@[simp] theorem hoverEnter_isTransitioning (s : Carousel) :
    (hoverEnter s).isTransitioning = s.isTransitioning := by
  unfold hoverEnter pauseAutoplay
  (try split_ifs) <;> rfl

@[simp] theorem hoverEnter_events (s : Carousel) :
    (hoverEnter s).events = s.events := by
  unfold hoverEnter pauseAutoplay
  (try split_ifs) <;> rfl

@[simp] theorem hoverEnter_slideCount (s : Carousel) :
    (hoverEnter s).slideCount = s.slideCount := by
  unfold hoverEnter pauseAutoplay
  (try split_ifs) <;> rfl

@[simp] theorem hoverEnter_options (s : Carousel) :
    (hoverEnter s).options = s.options := by
  unfold hoverEnter pauseAutoplay
  (try split_ifs) <;> rfl

@[simp] theorem hoverEnter_activeSlide (s : Carousel) :
    (hoverEnter s).activeSlide = s.activeSlide := by
  unfold hoverEnter pauseAutoplay
  (try split_ifs) <;> rfl

@[simp] theorem hoverEnter_setSlideCalls (s : Carousel) :
    (hoverEnter s).setSlideCalls = s.setSlideCalls := by
  unfold hoverEnter pauseAutoplay
  (try split_ifs) <;> rfl

@[simp] theorem hoverLeave_currentSlide (s : Carousel) :
    (hoverLeave s).currentSlide = s.currentSlide := by
  unfold hoverLeave startAutoplay pauseAutoplay
  (try split_ifs) <;> rfl

@[simp] theorem hoverLeave_pending (s : Carousel) :
    (hoverLeave s).pending = s.pending := by
  unfold hoverLeave startAutoplay pauseAutoplay
  (try split_ifs) <;> rfl

@[simp] theorem hoverLeave_isTransitioning (s : Carousel) :
    (hoverLeave s).isTransitioning = s.isTransitioning := by
  unfold hoverLeave startAutoplay pauseAutoplay
  (try split_ifs) <;> rfl

@[simp] theorem hoverLeave_events (s : Carousel) :
    (hoverLeave s).events = s.events := by
  unfold hoverLeave startAutoplay pauseAutoplay
  (try split_ifs) <;> rfl

@[simp] theorem hoverLeave_slideCount (s : Carousel) :
    (hoverLeave s).slideCount = s.slideCount := by
  unfold hoverLeave startAutoplay pauseAutoplay
  (try split_ifs) <;> rfl

@[simp] theorem hoverLeave_options (s : Carousel) :
    (hoverLeave s).options = s.options := by
  unfold hoverLeave startAutoplay pauseAutoplay
  (try split_ifs) <;> rfl

@[simp] theorem hoverLeave_activeSlide (s : Carousel) :
    (hoverLeave s).activeSlide = s.activeSlide := by
  unfold hoverLeave startAutoplay pauseAutoplay
  (try split_ifs) <;> rfl

@[simp] theorem hoverLeave_setSlideCalls (s : Carousel) :
    (hoverLeave s).setSlideCalls = s.setSlideCalls := by
  unfold hoverLeave startAutoplay pauseAutoplay
  (try split_ifs) <;> rfl

@[simp] theorem visibilityHidden_currentSlide (s : Carousel) :
    (visibilityHidden s).currentSlide = s.currentSlide := by
  unfold visibilityHidden pauseAutoplay
  (try split_ifs) <;> rfl

@[simp] theorem visibilityHidden_pending (s : Carousel) :
    (visibilityHidden s).pending = s.pending := by
  unfold visibilityHidden pauseAutoplay
  (try split_ifs) <;> rfl

@[simp] theorem visibilityHidden_isTransitioning (s : Carousel) :
    (visibilityHidden s).isTransitioning = s.isTransitioning := by
  unfold visibilityHidden pauseAutoplay
  (try split_ifs) <;> rfl

@[simp] theorem visibilityHidden_events (s : Carousel) :
    (visibilityHidden s).events = s.events := by
  unfold visibilityHidden pauseAutoplay
  (try split_ifs) <;> rfl

@[simp] theorem visibilityHidden_slideCount (s : Carousel) :
    (visibilityHidden s).slideCount = s.slideCount := by
  unfold visibilityHidden pauseAutoplay
  (try split_ifs) <;> rfl

@[simp] theorem visibilityHidden_options (s : Carousel) :
    (visibilityHidden s).options = s.options := by
  unfold visibilityHidden pauseAutoplay
  (try split_ifs) <;> rfl

@[simp] theorem visibilityHidden_activeSlide (s : Carousel) :
    (visibilityHidden s).activeSlide = s.activeSlide := by
  unfold visibilityHidden pauseAutoplay
  (try split_ifs) <;> rfl

@[simp] theorem visibilityHidden_setSlideCalls (s : Carousel) :
    (visibilityHidden s).setSlideCalls = s.setSlideCalls := by
  unfold visibilityHidden pauseAutoplay
  (try split_ifs) <;> rfl

@[simp] theorem visibilityShown_currentSlide (s : Carousel) :
    (visibilityShown s).currentSlide = s.currentSlide := by
  unfold visibilityShown startAutoplay pauseAutoplay
  (try split_ifs) <;> rfl

@[simp] theorem visibilityShown_pending (s : Carousel) :
    (visibilityShown s).pending = s.pending := by
  unfold visibilityShown startAutoplay pauseAutoplay
  (try split_ifs) <;> rfl

@[simp] theorem visibilityShown_isTransitioning (s : Carousel) :
    (visibilityShown s).isTransitioning = s.isTransitioning := by
  unfold visibilityShown startAutoplay pauseAutoplay
  (try split_ifs) <;> rfl

@[simp] theorem visibilityShown_events (s : Carousel) :
    (visibilityShown s).events = s.events := by
  unfold visibilityShown startAutoplay pauseAutoplay
  (try split_ifs) <;> rfl

@[simp] theorem visibilityShown_slideCount (s : Carousel) :
    (visibilityShown s).slideCount = s.slideCount := by
  unfold visibilityShown startAutoplay pauseAutoplay
  (try split_ifs) <;> rfl

@[simp] theorem visibilityShown_options (s : Carousel) :
    (visibilityShown s).options = s.options := by
  unfold visibilityShown startAutoplay pauseAutoplay
  (try split_ifs) <;> rfl

@[simp] theorem visibilityShown_activeSlide (s : Carousel) :
    (visibilityShown s).activeSlide = s.activeSlide := by
  unfold visibilityShown startAutoplay pauseAutoplay
  (try split_ifs) <;> rfl

@[simp] theorem visibilityShown_setSlideCalls (s : Carousel) :
    (visibilityShown s).setSlideCalls = s.setSlideCalls := by
  unfold visibilityShown startAutoplay pauseAutoplay
  (try split_ifs) <;> rfl

@[simp] theorem touchStart_currentSlide (s : Carousel) :
    (touchStart s).currentSlide = s.currentSlide := by
  unfold touchStart pauseAutoplay
  (try split_ifs) <;> rfl

@[simp] theorem touchStart_pending (s : Carousel) :
    (touchStart s).pending = s.pending := by
  unfold touchStart pauseAutoplay
  (try split_ifs) <;> rfl

@[simp] theorem touchStart_isTransitioning (s : Carousel) :
    (touchStart s).isTransitioning = s.isTransitioning := by
  unfold touchStart pauseAutoplay
  (try split_ifs) <;> rfl

@[simp] theorem touchStart_events (s : Carousel) :
    (touchStart s).events = s.events := by
  unfold touchStart pauseAutoplay
  (try split_ifs) <;> rfl

@[simp] theorem touchStart_slideCount (s : Carousel) :
    (touchStart s).slideCount = s.slideCount := by
  unfold touchStart pauseAutoplay
  (try split_ifs) <;> rfl

@[simp] theorem touchStart_options (s : Carousel) :
    (touchStart s).options = s.options := by
  unfold touchStart pauseAutoplay
  (try split_ifs) <;> rfl

@[simp] theorem touchStart_activeSlide (s : Carousel) :
    (touchStart s).activeSlide = s.activeSlide := by
  unfold touchStart pauseAutoplay
  (try split_ifs) <;> rfl

@[simp] theorem touchStart_setSlideCalls (s : Carousel) :
    (touchStart s).setSlideCalls = s.setSlideCalls := by
  unfold touchStart pauseAutoplay
  (try split_ifs) <;> rfl

@[simp] theorem createControls_currentSlide (s : Carousel) :
    (createControls s).currentSlide = s.currentSlide := by
  unfold createControls
  (try split_ifs) <;> rfl

@[simp] theorem createControls_pending (s : Carousel) :
    (createControls s).pending = s.pending := by
  unfold createControls
  (try split_ifs) <;> rfl

@[simp] theorem createControls_isTransitioning (s : Carousel) :
    (createControls s).isTransitioning = s.isTransitioning := by
  unfold createControls
  (try split_ifs) <;> rfl

@[simp] theorem createControls_events (s : Carousel) :
    (createControls s).events = s.events := by
  unfold createControls
  (try split_ifs) <;> rfl

@[simp] theorem createControls_slideCount (s : Carousel) :
    (createControls s).slideCount = s.slideCount := by
  unfold createControls
  (try split_ifs) <;> rfl

@[simp] theorem createControls_options (s : Carousel) :
    (createControls s).options = s.options := by
  unfold createControls
  (try split_ifs) <;> rfl

@[simp] theorem createControls_activeSlide (s : Carousel) :
    (createControls s).activeSlide = s.activeSlide := by
  unfold createControls
  (try split_ifs) <;> rfl

@[simp] theorem createControls_setSlideCalls (s : Carousel) :
    (createControls s).setSlideCalls = s.setSlideCalls := by
  unfold createControls
  (try split_ifs) <;> rfl

/-- State of a freshly constructed carousel: construction always
succeeds (the constructor is total, also for zero panels), the
"Initialize first slide" call `goToSlide(0, false)` is dropped by its
own `index === currentSlide` guard, and only `createControls` /
`startAutoplay` have any effect. -/
theorem mkCarousel_spec (n : Nat) (opts : Options) :
    (mkCarousel n opts).slideCount = n ∧
    (mkCarousel n opts).options = opts ∧
    (mkCarousel n opts).currentSlide = 0 ∧
    (mkCarousel n opts).pending = none ∧
    (mkCarousel n opts).isTransitioning = false ∧
    (mkCarousel n opts).events = [] ∧
    (mkCarousel n opts).activeSlide = none ∧
    (mkCarousel n opts).setSlideCalls = 0 := by
  have hdrop : ∀ s : Carousel, s.currentSlide = 0 → goToSlide s 0 false = s := by
    intro s h
    have hs := goToSlide_self s false
    rwa [h] at hs
  unfold mkCarousel
  rw [hdrop _ (by split_ifs <;> simp [mkState])]
  split_ifs <;> simp [mkState]

/-- Claim C5: the claim says the non-animated placement `setSlide(0)`
runs exactly once during construction, marking slide 0 active.  The
code's `init` instead calls `goToSlide(0, false)`, whose
`index === this.currentSlide` guard is already true (`currentSlide` is
initialized to 0 in the constructor), so it returns before reaching
`setSlide`: after construction `setSlide` has run zero times, no slide
carries the `active` class, and no notification was dispatched —
contradicting the code's own "Initialize first slide" comment. -/
theorem init_never_places_first_slide (n : Nat) (opts : Options) :
    (mkCarousel n opts).setSlideCalls = 0 ∧
    (mkCarousel n opts).activeSlide = none ∧
    (mkCarousel n opts).events = [] ∧
    (mkCarousel n opts).currentSlide = 0 := by
  obtain ⟨-, -, h3, -, -, h6, h7, h8⟩ := mkCarousel_spec n opts
  exact ⟨h8, h7, h6, h3⟩

end PLSCarousel

namespace PLSCarousel

/-- Claim C10: the `index === currentSlide` guard runs before boundary
resolution, so with `loop = false` a `next()` from the last slide is
not dropped: the out-of-range target `slideCount` passes the guard,
clamps back to `slideCount - 1`, sets `isTransitioning`, dispatches
`slideChange` with `from = to = slideCount - 1`, schedules the
completion callback at the fixed 500 ms duration, and on completion
dispatches `slideChanged` at `slideCount - 1`, with `currentSlide`
equal to `slideCount - 1` throughout.  Symmetrically, `prev()` at
index 0 self-transitions to 0. -/
theorem self_transition_at_clamped_boundary (s s' : Carousel)
    (hl : s.options.loop = false) (hn : 1 ≤ s.slideCount)
    (hc : s.currentSlide = (s.slideCount : Int) - 1)
    (ht : s.isTransitioning = false)
    (hl' : s'.options.loop = false) (hn' : 1 ≤ s'.slideCount)
    (hc' : s'.currentSlide = 0) (ht' : s'.isTransitioning = false) :
    ((nextSlide s).isTransitioning = true ∧
     (nextSlide s).events = s.events ++
       [Event.slideChange ((s.slideCount : Int) - 1) ((s.slideCount : Int) - 1)] ∧
     (nextSlide s).pending = some ⟨(s.slideCount : Int) - 1, transitionDurationMs⟩ ∧
     transitionDurationMs = 500 ∧
     (nextSlide s).currentSlide = (s.slideCount : Int) - 1 ∧
     (settle (nextSlide s)).events = s.events ++
       [Event.slideChange ((s.slideCount : Int) - 1) ((s.slideCount : Int) - 1),
        Event.slideChanged ((s.slideCount : Int) - 1)] ∧
     (settle (nextSlide s)).currentSlide = (s.slideCount : Int) - 1 ∧
     (settle (nextSlide s)).isTransitioning = false) ∧
    ((prevSlide s').isTransitioning = true ∧
     (prevSlide s').events = s'.events ++ [Event.slideChange 0 0] ∧
     (prevSlide s').pending = some ⟨0, transitionDurationMs⟩ ∧
     (prevSlide s').currentSlide = 0 ∧
     (settle (prevSlide s')).events = s'.events ++
       [Event.slideChange 0 0, Event.slideChanged 0] ∧
     (settle (prevSlide s')).currentSlide = 0 ∧
     (settle (prevSlide s')).isTransitioning = false) := by
  have hres : resolveIndex s.options.loop s.slideCount (s.currentSlide + 1) =
      (s.slideCount : Int) - 1 := by
    rw [hl, hc]
    unfold resolveIndex
    rw [if_pos (by omega)]
    rfl
  have hres' : resolveIndex s'.options.loop s'.slideCount (s'.currentSlide - 1) = 0 := by
    rw [hl', hc']
    unfold resolveIndex
    rw [if_neg (by omega), if_pos (by omega)]
    rfl
  have hnext := goToSlide_animate_eq s (s.currentSlide + 1) ht (by omega)
  have hprev := goToSlide_animate_eq s' (s'.currentSlide - 1) ht' (by omega)
  rw [hres] at hnext
  rw [hres'] at hprev
  unfold nextSlide prevSlide
  rw [hnext, hprev]
  refine ⟨⟨rfl, by rw [hc], rfl, rfl, hc, ?_, ?_, ?_⟩,
          ⟨rfl, by rw [hc'], rfl, hc', ?_, ?_, ?_⟩⟩ <;>
    simp [settle, updateSlideState, hc, hc']

/-- Witness for C10: a 2-slide non-looping carousel settled on its last
slide self-transitions on `next()` (notification `from = to = 1`), and
the same carousel freshly constructed (index 0) self-transitions on
`prev()` (notification `from = to = 0`). -/
theorem self_transition_witness :
    (nextSlide (settle (nextSlide (mkCarousel 2 {loop := false})))).events =
      [Event.slideChange 0 1, Event.slideChanged 1, Event.slideChange 1 1] ∧
    (settle (nextSlide (settle (nextSlide (mkCarousel 2 {loop := false}))))).currentSlide = 1 ∧
    (prevSlide (mkCarousel 2 {loop := false})).events = [Event.slideChange 0 0] := by
  have h := self_transition_at_clamped_boundary
    (settle (nextSlide (mkCarousel 2 {loop := false})))
    (mkCarousel 2 {loop := false})
    (by decide) (by decide) (by decide) (by decide)
    (by decide) (by decide) (by decide) (by decide)
  refine ⟨h.1.2.1.trans (by decide), h.1.2.2.2.2.2.2.1.trans (by decide),
    h.2.2.1.trans (by decide)⟩

end PLSCarousel

namespace PLSCarousel

/-- Claim C1, amended: for every carousel with `slideCount > 1`, issuing
`next()` twice with zero delay between the calls starts exactly one
transition: the second call is literally the identity on the state
(dropped by the `isTransitioning` guard), so no second transition
begins before the first's completion callback has run, and exactly one
`slideChanged` notification fires — carrying the boundary-resolved
successor of the starting index (`currentIndex + 1` wrapped to 0 under
`loop`; under `loop = false` clamped, which at the last slide is the
starting index itself rather than one step past it). -/
theorem next_twice_mutual_exclusion (s : Carousel)
    (hn : 1 < s.slideCount) (ht : s.isTransitioning = false)
    (hc0 : 0 ≤ s.currentSlide) (hc1 : s.currentSlide < (s.slideCount : Int)) :
    nextSlide (nextSlide s) = nextSlide s ∧
    (nextSlide s).isTransitioning = true ∧
    (settle (nextSlide (nextSlide s))).events = s.events ++
      [Event.slideChange s.currentSlide
         (resolveIndex s.options.loop s.slideCount (s.currentSlide + 1)),
       Event.slideChanged
         (resolveIndex s.options.loop s.slideCount (s.currentSlide + 1))] ∧
    (settle (nextSlide (nextSlide s))).currentSlide =
      resolveIndex s.options.loop s.slideCount (s.currentSlide + 1) ∧
    (settle (nextSlide (nextSlide s))).isTransitioning = false ∧
    (s.options.loop = true →
      resolveIndex s.options.loop s.slideCount (s.currentSlide + 1) =
        (s.currentSlide + 1) % (s.slideCount : Int)) := by
  have hfirst := goToSlide_animate_eq s (s.currentSlide + 1) ht (by omega)
  have h1 : nextSlide s =
      { s with
          isTransitioning := true
          events := s.events ++
            [Event.slideChange s.currentSlide
              (resolveIndex s.options.loop s.slideCount (s.currentSlide + 1))]
          pending := some ⟨resolveIndex s.options.loop s.slideCount (s.currentSlide + 1),
            500⟩ } := hfirst
  have h2 : nextSlide (nextSlide s) = nextSlide s :=
    goToSlide_of_transitioning (nextSlide s) ((nextSlide s).currentSlide + 1) true
      (by rw [h1])
  refine ⟨h2, by rw [h1], ?_, ?_, ?_, fun hl => ?_⟩
  · rw [h2, h1]
    simp [settle, updateSlideState]
  · rw [h2, h1]
    simp [settle, updateSlideState]
  · rw [h2, h1]
    simp [settle, updateSlideState]
  · unfold resolveIndex
    rw [hl]
    by_cases hge : s.currentSlide + 1 ≥ (s.slideCount : Int)
    · have heq : s.currentSlide + 1 = (s.slideCount : Int) := by omega
      rw [if_pos hge, heq, Int.emod_self]
      simp
    · rw [if_neg hge, if_neg (by omega)]
      exact (Int.emod_eq_of_lt (by omega) (by omega)).symm

/-- Witness for C1 (amended): on a fresh 3-slide looping carousel at
index 0, the first `next()` locks the transition, the second is
dropped, and settling yields exactly one `slideChanged` at index 1. -/
theorem next_twice_mutual_exclusion_witness :
    nextSlide (nextSlide (mkCarousel 3 {})) = nextSlide (mkCarousel 3 {}) ∧
    (settle (nextSlide (nextSlide (mkCarousel 3 {})))).events =
      [Event.slideChange 0 1, Event.slideChanged 1] ∧
    (settle (nextSlide (nextSlide (mkCarousel 3 {})))).currentSlide = 1 := by
  have h := next_twice_mutual_exclusion (mkCarousel 3 {})
    (by decide) (by decide) (by decide) (by decide)
  exact ⟨h.1, h.2.2.1.trans (by decide), h.2.2.2.1.trans (by decide)⟩

/-- Counterexample to C1 as stated: on a 2-slide carousel with
`loop = false` settled on its last slide (index 1), two immediate
`next()` calls produce exactly one transition and one `slideChanged`
notification, but it carries index 1 — the starting index, not the
index one step past it (2). -/
theorem next_twice_notification_not_one_step_past :
    (settle (nextSlide (mkCarousel 2 {loop := false}))).currentSlide = 1 ∧
    (settle (nextSlide (nextSlide (settle (nextSlide (mkCarousel 2 {loop := false})))))).events =
      [Event.slideChange 0 1, Event.slideChanged 1,
       Event.slideChange 1 1, Event.slideChanged 1] ∧
    (1 : Int) ≠ 1 + 1 := by
  decide

end PLSCarousel

namespace PLSCarousel

/-- Claim C7, amended: the two release paths use different policies.
For a completed TOUCH sequence with deltas `dx`, `dy`, navigation is
committed iff `|dx| > |dy|` and `|dx| > 50` (`dx > 0` → `prev()`,
`dx < 0` → `next()`); so `|dx| = 51, |dy| = 10` navigates, `|dx| = 49`
does not, and `|dx| = 60, |dy| = 70` does not.  For a completed MOUSE
drag the handler computes only the horizontal delta: navigation is
committed iff `|dx| > 50`, with no vertical-dominance check. -/
theorem gesture_release_threshold (s : Carousel) (dx dy : Int)
    (ht : s.isTransitioning = false) :
    ((touchRelease s dx dy).isTransitioning = true ↔
      (dx.natAbs > dy.natAbs ∧ dx.natAbs > 50)) ∧
    (dx.natAbs > dy.natAbs → dx.natAbs > 50 → 0 < dx →
      (touchRelease s dx dy).events = s.events ++
        [Event.slideChange s.currentSlide
          (resolveIndex s.options.loop s.slideCount (s.currentSlide - 1))]) ∧
    (dx.natAbs > dy.natAbs → dx.natAbs > 50 → dx < 0 →
      (touchRelease s dx dy).events = s.events ++
        [Event.slideChange s.currentSlide
          (resolveIndex s.options.loop s.slideCount (s.currentSlide + 1))]) ∧
    (¬(dx.natAbs > dy.natAbs ∧ dx.natAbs > 50) →
      (touchRelease s dx dy).events = s.events) ∧
    ((mouseRelease s dx dy).isTransitioning = true ↔ dx.natAbs > 50) ∧
    (dx.natAbs > 50 → 0 < dx →
      (mouseRelease s dx dy).events = s.events ++
        [Event.slideChange s.currentSlide
          (resolveIndex s.options.loop s.slideCount (s.currentSlide - 1))]) ∧
    (dx.natAbs > 50 → dx < 0 →
      (mouseRelease s dx dy).events = s.events ++
        [Event.slideChange s.currentSlide
          (resolveIndex s.options.loop s.slideCount (s.currentSlide + 1))]) ∧
    (¬dx.natAbs > 50 → mouseRelease s dx dy = s) := by
  have hprev := goToSlide_animate_eq s (s.currentSlide - 1) ht (by omega)
  have hnext := goToSlide_animate_eq s (s.currentSlide + 1) ht (by omega)
  refine ⟨⟨fun htr => ?_, fun hc => ?_⟩, fun h1 h2 h3 => ?_, fun h1 h2 h3 => ?_,
    fun h => ?_, ⟨fun htr => ?_, fun h2 => ?_⟩, fun h2 h3 => ?_, fun h2 h3 => ?_,
    fun h => ?_⟩
  · by_contra hcommit
    simp only [touchRelease] at htr
    rw [if_neg hcommit] at htr
    split_ifs at htr <;> simp_all
  · simp only [touchRelease]
    rw [if_pos hc]
    split_ifs <;> simp [prevSlide, nextSlide, hprev, hnext]
  · have hc : dx.natAbs > dy.natAbs ∧ dx.natAbs > 50 := ⟨h1, h2⟩
    simp only [touchRelease]
    rw [if_pos hc, if_pos h3]
    split_ifs <;> simp [prevSlide, hprev]
  · have hc : dx.natAbs > dy.natAbs ∧ dx.natAbs > 50 := ⟨h1, h2⟩
    have hnp : ¬dx > 0 := by omega
    simp only [touchRelease]
    rw [if_pos hc, if_neg hnp]
    split_ifs <;> simp [nextSlide, hnext]
  · simp only [touchRelease]
    rw [if_neg h]
    split_ifs <;> simp
  · by_contra hcommit
    simp only [mouseRelease] at htr
    rw [if_neg hcommit] at htr
    simp_all
  · simp only [mouseRelease]
    rw [if_pos h2]
    split_ifs <;> simp [prevSlide, nextSlide, hprev, hnext]
  · simp only [mouseRelease]
    rw [if_pos h2, if_pos h3]
    simp [prevSlide, hprev]
  · have hnp : ¬dx > 0 := by omega
    simp only [mouseRelease]
    rw [if_pos h2, if_neg hnp]
    simp [nextSlide, hnext]
  · simp only [mouseRelease]
    rw [if_neg h]

/-- Witness for C7 (amended): on a fresh 3-slide carousel, a touch drag
of `dx = -51, dy = 10` navigates, `dx = -49` does not, and
`dx = 60, dy = 70` does not; the same `dx = 60, dy = 70` drag DOES
navigate on the mouse path. -/
theorem gesture_release_threshold_witness :
    (touchRelease (mkCarousel 3 {}) (-51) 10).isTransitioning = true ∧
    (touchRelease (mkCarousel 3 {}) (-49) 10).isTransitioning = false ∧
    (touchRelease (mkCarousel 3 {}) 60 70).isTransitioning = false ∧
    (mouseRelease (mkCarousel 3 {}) 60 70).isTransitioning = true := by
  refine ⟨?_, ?_, ?_, ?_⟩
  · exact ((gesture_release_threshold (mkCarousel 3 {}) (-51) 10 (by decide)).1).mpr
      (by decide)
  · by_contra hne
    simp only [Bool.not_eq_false] at hne
    exact absurd (((gesture_release_threshold (mkCarousel 3 {}) (-49) 10
      (by decide)).1).mp hne) (by decide)
  · by_contra hne
    simp only [Bool.not_eq_false] at hne
    exact absurd (((gesture_release_threshold (mkCarousel 3 {}) 60 70
      (by decide)).1).mp hne) (by decide)
  · exact ((gesture_release_threshold (mkCarousel 3 {}) 60 70
      (by decide)).2.2.2.2.1).mpr (by decide)

/-- Counterexample to C7 as stated: a completed mouse drag with
`|dx| = 60` and `|dy| = 70` (vertical dominates, so the claim says no
navigation) does commit a navigation: the mouseup handler never reads
the vertical delta, so the drag starts a transition and dispatches a
`slideChange` notification. -/
theorem mouse_drag_ignores_vertical_dominance :
    ¬((60 : Int).natAbs > (70 : Int).natAbs) ∧
    (mouseRelease (mkCarousel 3 {}) 60 70).isTransitioning = true ∧
    (mouseRelease (mkCarousel 3 {}) 60 70).events = [Event.slideChange 0 2] := by
  decide

end PLSCarousel

namespace PLSCarousel

/-- Claim C8, amended: `pauseAutoplay` cancels the armed timer
(idempotently) and leaves `isPlaying`, `currentSlide` and
`isTransitioning` unchanged.  Consequently — PROVIDED autoplay is
enabled in the configuration and `slideCount > 1` (otherwise
`startAutoplay` refuses to re-arm) — with `pauseOnHover = true` and
`isPlaying = true`, hover-enter then hover-leave leaves the timer
re-armed; and after `toggle()` has set `isPlaying = false`, the same
hover cycle leaves the timer unarmed and `isPlaying` still false. -/
theorem pause_preserves_user_intent (s t u : Carousel)
    (h2a : t.options.autoplay = true) (h2b : 1 < t.slideCount)
    (h2c : t.options.pauseOnHover = true) (h2d : t.isPlaying = true)
    (h3a : u.options.pauseOnHover = true) (h3b : u.isPlaying = true) :
    ((pauseAutoplay s).autoplayTimer = false ∧
     (pauseAutoplay s).isPlaying = s.isPlaying ∧
     (pauseAutoplay s).currentSlide = s.currentSlide ∧
     (pauseAutoplay s).isTransitioning = s.isTransitioning ∧
     pauseAutoplay (pauseAutoplay s) = pauseAutoplay s) ∧
    ((hoverEnter t).autoplayTimer = false ∧
     (hoverLeave (hoverEnter t)).autoplayTimer = true) ∧
    ((toggleAutoplay u).isPlaying = false ∧
     (toggleAutoplay u).autoplayTimer = false ∧
     (hoverLeave (hoverEnter (toggleAutoplay u))).autoplayTimer = false ∧
     (hoverLeave (hoverEnter (toggleAutoplay u))).isPlaying = false) := by
  refine ⟨⟨rfl, rfl, rfl, rfl, rfl⟩, ⟨?_, ?_⟩, ?_⟩
  · simp [hoverEnter, h2c, pauseAutoplay]
  · have henter : hoverEnter t = pauseAutoplay t := by
      simp [hoverEnter, h2c]
    rw [henter]
    have hgt : ¬t.slideCount ≤ 1 := by omega
    simp [hoverLeave, h2c, h2d, startAutoplay, h2a, hgt, pauseAutoplay]
  · have htog : toggleAutoplay u = pauseAutoplay { u with isPlaying := false } := by
      simp [toggleAutoplay, h3b]
    have hplay : (toggleAutoplay u).isPlaying = false := by rw [htog]; rfl
    have htimer : (toggleAutoplay u).autoplayTimer = false := by rw [htog]; rfl
    have hhover : u.options.pauseOnHover = true := h3a
    refine ⟨hplay, htimer, ?_, ?_⟩
    · have he : hoverEnter (toggleAutoplay u) = pauseAutoplay (toggleAutoplay u) := by
        simp [hoverEnter, htog, pauseAutoplay, hhover]
      rw [he]
      simp [hoverLeave, htog, pauseAutoplay, hhover]
    · have he : hoverEnter (toggleAutoplay u) = pauseAutoplay (toggleAutoplay u) := by
        simp [hoverEnter, htog, pauseAutoplay, hhover]
      rw [he]
      simp [hoverLeave, htog, pauseAutoplay, hhover]

/-- Witness for C8 (amended): on a fresh 3-slide autoplaying carousel
the hover cycle re-arms the timer, and after toggling off it stays
unarmed. -/
theorem pause_preserves_user_intent_witness :
    (pauseAutoplay (mkCarousel 3 {})).autoplayTimer = false ∧
    (hoverLeave (hoverEnter (mkCarousel 3 {}))).autoplayTimer = true ∧
    (hoverLeave (hoverEnter (toggleAutoplay (mkCarousel 3 {})))).autoplayTimer = false := by
  have h := pause_preserves_user_intent (mkCarousel 3 {}) (mkCarousel 3 {})
    (mkCarousel 3 {}) (by decide) (by decide) (by decide) (by decide)
    (by decide) (by decide)
  exact ⟨h.1.1, h.2.1.2, h.2.2.2.2.1⟩

/-- Counterexample to C8 as stated: `isPlaying = true` with
`pauseOnHover = true` does NOT guarantee the hover cycle re-arms the
timer.  Construct a 3-slide carousel with `autoplay` disabled in the
configuration, then `toggle()`: `isPlaying` becomes true but
`startAutoplay` refuses to arm (config guard), and the subsequent
hover-enter / hover-leave cycle leaves the timer unarmed. -/
theorem hover_cycle_does_not_rearm_when_autoplay_disabled :
    (toggleAutoplay (mkCarousel 3 {autoplay := false})).isPlaying = true ∧
    (toggleAutoplay (mkCarousel 3 {autoplay := false})).options.pauseOnHover = true ∧
    (hoverLeave (hoverEnter (toggleAutoplay (mkCarousel 3 {autoplay := false})))).autoplayTimer
      = false ∧
    (hoverLeave (hoverEnter (toggleAutoplay (mkCarousel 3 {autoplay := false})))).isPlaying
      = true := by
  decide

end PLSCarousel

namespace PLSCarousel

/-! Preservation lemmas for the navigation core and the dispatch of
event-driven entries. -/

@[simp] theorem goToSlide_slideCount (s : Carousel) (i : Int) (a : Bool) :
    (goToSlide s i a).slideCount = s.slideCount := by
  unfold goToSlide setSlide
  split_ifs <;> rfl

@[simp] theorem goToSlide_options (s : Carousel) (i : Int) (a : Bool) :
    (goToSlide s i a).options = s.options := by
  unfold goToSlide setSlide
  split_ifs <;> rfl

@[simp] theorem goToSlide_autoplayTimer (s : Carousel) (i : Int) (a : Bool) :
    (goToSlide s i a).autoplayTimer = s.autoplayTimer := by
  unfold goToSlide setSlide
  split_ifs <;> rfl

@[simp] theorem settle_slideCount (s : Carousel) :
    (settle s).slideCount = s.slideCount := by
  unfold settle updateSlideState
  cases s.pending <;> rfl

@[simp] theorem settle_options (s : Carousel) :
    (settle s).options = s.options := by
  unfold settle updateSlideState
  cases s.pending <;> rfl

@[simp] theorem settle_autoplayTimer (s : Carousel) :
    (settle s).autoplayTimer = s.autoplayTimer := by
  unfold settle updateSlideState
  cases s.pending <;> rfl

theorem startAutoplay_of_inert (s : Carousel) (h : s.slideCount ≤ 1) :
    startAutoplay s = s := by
  unfold startAutoplay
  rw [if_pos (Or.inr h)]

theorem applyAct_slideCount (s : Carousel) (a : Act) :
    (applyAct s a).slideCount = s.slideCount := by
  cases a <;>
    simp only [applyAct, nextSlide, prevSlide, toggleAutoplay, hoverEnter,
      hoverLeave, visibilityHidden, visibilityShown, touchStart, touchRelease,
      mouseRelease] <;>
    (try split_ifs) <;>
    simp

theorem applyAct_options (s : Carousel) (a : Act) :
    (applyAct s a).options = s.options := by
  cases a <;>
    simp only [applyAct, nextSlide, prevSlide, toggleAutoplay, hoverEnter,
      hoverLeave, visibilityHidden, visibilityShown, touchStart, touchRelease,
      mouseRelease] <;>
    (try split_ifs) <;>
    simp

theorem applyAct_timer_inert (s : Carousel) (a : Act)
    (hn : s.slideCount ≤ 1) (h : s.autoplayTimer = false) :
    (applyAct s a).autoplayTimer = false := by
  have hstart : ∀ t : Carousel, t.slideCount = s.slideCount → startAutoplay t = t := by
    intro t htc
    exact startAutoplay_of_inert t (by omega)
  cases a <;>
    simp only [applyAct, nextSlide, prevSlide, toggleAutoplay, hoverEnter,
      hoverLeave, visibilityHidden, visibilityShown, touchStart, touchRelease,
      mouseRelease, pauseAutoplay] <;>
    (try split_ifs) <;>
    simp_all [hstart]

end PLSCarousel

namespace PLSCarousel

/-- The index-range invariant: the settled index is in
`[0, slideCount)` and any scheduled transition-completion target is
too. -/
def GoodIdx (s : Carousel) : Prop :=
  0 ≤ s.currentSlide ∧ s.currentSlide < (s.slideCount : Int) ∧
  ∀ sch : Scheduled, s.pending = some sch →
    0 ≤ sch.target ∧ sch.target < (s.slideCount : Int)

theorem goodIdx_transfer {s t : Carousel}
    (hc : t.currentSlide = s.currentSlide) (hp : t.pending = s.pending)
    (hn : t.slideCount = s.slideCount) (h : GoodIdx s) : GoodIdx t := by
  unfold GoodIdx at h ⊢
  rw [hc, hp, hn]
  exact h

theorem goToSlide_goodIdx (s : Carousel) (i : Int) (a : Bool)
    (h : GoodIdx s) : GoodIdx (goToSlide s i a) := by
  obtain ⟨h0, h1, h2⟩ := h
  have hn : 0 < s.slideCount := by omega
  have hr := resolveIndex_range s.options.loop s.slideCount i hn
  unfold goToSlide setSlide
  split_ifs
  · exact ⟨h0, h1, h2⟩
  · exact ⟨hr.1, hr.2, h2⟩
  · refine ⟨h0, h1, fun sch hsch => ?_⟩
    simp only [Option.some.injEq] at hsch
    rw [← hsch]
    exact hr

theorem settle_goodIdx (s : Carousel) (h : GoodIdx s) : GoodIdx (settle s) := by
  obtain ⟨h0, h1, h2⟩ := h
  cases hp : s.pending with
  | none => simpa [settle, hp] using ⟨h0, h1, h2⟩
  | some sch =>
      have := h2 sch hp
      simp only [settle, hp, updateSlideState]
      exact ⟨this.1, this.2, fun sch' hsch' => by simp at hsch'⟩

theorem applyAct_goodIdx (s : Carousel) (a : Act) (h : GoodIdx s) :
    GoodIdx (applyAct s a) := by
  have hstep : ∀ t : Carousel, GoodIdx t → GoodIdx (startAutoplay t) := by
    intro t htg
    exact goodIdx_transfer (by simp) (by simp) (by simp) htg
  cases a with
  | next => exact goToSlide_goodIdx s _ true h
  | prev => exact goToSlide_goodIdx s _ true h
  | goTo i => exact goToSlide_goodIdx s i true h
  | autoplayTick =>
      simp only [applyAct]
      split_ifs
      · exact goToSlide_goodIdx s _ true h
      · exact h
  | settleTransition => exact settle_goodIdx s h
  | toggle =>
      exact goodIdx_transfer (by simp [applyAct]) (by simp [applyAct])
        (by simp [applyAct]) h
  | hoverIn =>
      exact goodIdx_transfer (by simp [applyAct]) (by simp [applyAct])
        (by simp [applyAct]) h
  | hoverOut =>
      exact goodIdx_transfer (by simp [applyAct]) (by simp [applyAct])
        (by simp [applyAct]) h
  | visHidden =>
      exact goodIdx_transfer (by simp [applyAct]) (by simp [applyAct])
        (by simp [applyAct]) h
  | visShown =>
      exact goodIdx_transfer (by simp [applyAct]) (by simp [applyAct])
        (by simp [applyAct]) h
  | touchDown =>
      simp only [applyAct]
      split_ifs
      · exact goodIdx_transfer (by simp) (by simp) (by simp) h
      · exact h
  | touchUp dx dy =>
      simp only [applyAct]
      split_ifs with hsw
      · simp only [touchRelease]
        split_ifs <;>
          first
            | exact hstep _ (goToSlide_goodIdx s _ true h)
            | exact goToSlide_goodIdx s _ true h
            | exact hstep _ h
            | exact h
      · exact h
  | mouseUp dx dy =>
      simp only [applyAct]
      split_ifs with hsw
      · simp only [mouseRelease]
        split_ifs
        · exact goToSlide_goodIdx s _ true h
        · exact goToSlide_goodIdx s _ true h
        · exact h
      · exact h

theorem reachable_goodIdx {s0 s : Carousel} (h0 : GoodIdx s0)
    (hr : Reachable s0 s) : GoodIdx s := by
  induction hr with
  | refl => exact h0
  | step a hr ih => exact applyAct_goodIdx _ a ih

theorem reachable_slideCount {s0 s : Carousel} (hr : Reachable s0 s) :
    s.slideCount = s0.slideCount := by
  induction hr with
  | refl => rfl
  | step a hr ih => rw [applyAct_slideCount]; exact ih

theorem mkCarousel_goodIdx (n : Nat) (opts : Options) (hn : 0 < n) :
    GoodIdx (mkCarousel n opts) := by
  obtain ⟨h1, -, h3, h4, -⟩ := mkCarousel_spec n opts
  exact ⟨by rw [h3], by rw [h3, h1]; exact_mod_cast hn, fun sch hsch => by
    rw [h4] at hsch; cases hsch⟩

end PLSCarousel

namespace PLSCarousel

/-- Claim C9: for every carousel constructed with `slideCount > 0`, the
index-range invariant `0 ≤ currentSlide < slideCount` holds initially
and in every state reachable through any sequence of event-driven
entries (`goTo`, `next`, `prev`, the autoplay tick, settling, toggling,
hover, visibility, and gesture commits); `slideCount` itself never
changes. -/
theorem index_range_invariant (n : Nat) (opts : Options) (s : Carousel)
    (hn : 0 < n) (hr : Reachable (mkCarousel n opts) s) :
    s.slideCount = n ∧ 0 ≤ s.currentSlide ∧ s.currentSlide < (n : Int) := by
  have hsc : s.slideCount = n := by
    rw [reachable_slideCount hr, (mkCarousel_spec n opts).1]
  have hg := reachable_goodIdx (mkCarousel_goodIdx n opts hn) hr
  exact ⟨hsc, hg.1, by rw [← hsc]; exact hg.2.1⟩

/-- Witness for C9: after requesting the out-of-range slide 7 on a
fresh 3-slide carousel and settling, the index is still in `[0, 3)`. -/
theorem index_range_invariant_witness :
    (applyAct (applyAct (mkCarousel 3 {}) (Act.goTo 7)) Act.settleTransition).slideCount = 3 ∧
    0 ≤ (applyAct (applyAct (mkCarousel 3 {}) (Act.goTo 7)) Act.settleTransition).currentSlide ∧
    (applyAct (applyAct (mkCarousel 3 {}) (Act.goTo 7)) Act.settleTransition).currentSlide
      < (3 : Int) :=
  index_range_invariant 3 {} _ (by decide)
    (Reachable.step Act.settleTransition (Reachable.step (Act.goTo 7) Reachable.refl))

/-- Claim C6, amended: construction against zero panels succeeds and
yields an inert state (no generated controls, timer never armed); with
exactly one slide no arrows, dots or play/pause controls are generated
and no sequence of event-driven entries ever arms the autoplay timer.
However `next()` and `prev()` on a 1-slide carousel are NOT silent
no-ops: each passes the `index === currentSlide` guard (target ±1 ≠ 0),
clamps/wraps back to 0, and starts a self-transition that emits the
`slideChange` and, on completion, `slideChanged` notifications, with
`currentSlide` staying 0 throughout. -/
theorem degenerate_carousel_inertness (opts : Options) :
    ((mkCarousel 0 opts).arrowsCreated = false ∧
     (mkCarousel 0 opts).dotsCreated = false ∧
     (mkCarousel 0 opts).playPauseCreated = false ∧
     (mkCarousel 0 opts).autoplayTimer = false ∧
     (mkCarousel 0 opts).events = [] ∧
     (mkCarousel 0 opts).currentSlide = 0) ∧
    ((mkCarousel 1 opts).arrowsCreated = false ∧
     (mkCarousel 1 opts).dotsCreated = false ∧
     (mkCarousel 1 opts).playPauseCreated = false) ∧
    (∀ s, Reachable (mkCarousel 0 opts) s → s.autoplayTimer = false) ∧
    (∀ s, Reachable (mkCarousel 1 opts) s → s.autoplayTimer = false) ∧
    ((nextSlide (mkCarousel 1 opts)).currentSlide = 0 ∧
     (nextSlide (mkCarousel 1 opts)).isTransitioning = true ∧
     (nextSlide (mkCarousel 1 opts)).events = [Event.slideChange 0 0] ∧
     (settle (nextSlide (mkCarousel 1 opts))).events =
       [Event.slideChange 0 0, Event.slideChanged 0] ∧
     (settle (nextSlide (mkCarousel 1 opts))).currentSlide = 0 ∧
     (prevSlide (mkCarousel 1 opts)).currentSlide = 0 ∧
     (prevSlide (mkCarousel 1 opts)).isTransitioning = true ∧
     (prevSlide (mkCarousel 1 opts)).events = [Event.slideChange 0 0]) := by
  have hcontrols : ∀ n : Nat, n ≤ 1 →
      (mkCarousel n opts).arrowsCreated = false ∧
      (mkCarousel n opts).dotsCreated = false ∧
      (mkCarousel n opts).playPauseCreated = false ∧
      (mkCarousel n opts).autoplayTimer = false := by
    intro n hle
    have hdrop : ∀ t : Carousel, t.currentSlide = 0 → goToSlide t 0 false = t := by
      intro t h
      have ht := goToSlide_self t false
      rwa [h] at ht
    unfold mkCarousel createControls mkState
    rw [if_pos hle]
    rw [hdrop _ (by split_ifs <;> simp [startAutoplay, pauseAutoplay] <;>
      split_ifs <;> rfl)]
    split_ifs with hap
    · rw [startAutoplay_of_inert _ (by simpa using hle)]
      exact ⟨rfl, rfl, rfl, rfl⟩
    · exact ⟨rfl, rfl, rfl, rfl⟩
  have htimer : ∀ (n : Nat), n ≤ 1 → ∀ s, Reachable (mkCarousel n opts) s →
      s.autoplayTimer = false := by
    intro n hle s hr
    induction hr with
    | refl => exact (hcontrols n hle).2.2.2
    | step a hr ih =>
        refine applyAct_timer_inert _ a ?_ ih
        rw [reachable_slideCount hr, (mkCarousel_spec n opts).1]
        exact hle
  have hone := mkCarousel_spec 1 opts
  have hsc1 : (mkCarousel 1 opts).slideCount = 1 := hone.1
  have hcur1 : (mkCarousel 1 opts).currentSlide = 0 := hone.2.2.1
  have htr1 : (mkCarousel 1 opts).isTransitioning = false := hone.2.2.2.2.1
  have hev1 : (mkCarousel 1 opts).events = [] := hone.2.2.2.2.2.1
  have hresn : resolveIndex (mkCarousel 1 opts).options.loop (mkCarousel 1 opts).slideCount
      ((mkCarousel 1 opts).currentSlide + 1) = 0 := by
    rw [hcur1, hsc1]
    unfold resolveIndex
    rw [if_pos (by omega)]
    split_ifs <;> rfl
  have hresp : resolveIndex (mkCarousel 1 opts).options.loop (mkCarousel 1 opts).slideCount
      ((mkCarousel 1 opts).currentSlide - 1) = 0 := by
    rw [hcur1, hsc1]
    unfold resolveIndex
    rw [if_neg (by omega), if_pos (by omega)]
    split_ifs <;> rfl
  have hnext := goToSlide_animate_eq (mkCarousel 1 opts)
    ((mkCarousel 1 opts).currentSlide + 1) htr1 (by omega)
  have hprev := goToSlide_animate_eq (mkCarousel 1 opts)
    ((mkCarousel 1 opts).currentSlide - 1) htr1 (by omega)
  rw [hresn] at hnext
  rw [hresp] at hprev
  have hzero := mkCarousel_spec 0 opts
  refine ⟨⟨(hcontrols 0 (by omega)).1, (hcontrols 0 (by omega)).2.1,
      (hcontrols 0 (by omega)).2.2.1, (hcontrols 0 (by omega)).2.2.2,
      hzero.2.2.2.2.2.1, hzero.2.2.1⟩,
    ⟨(hcontrols 1 (by omega)).1, (hcontrols 1 (by omega)).2.1,
      (hcontrols 1 (by omega)).2.2.1⟩,
    htimer 0 (by omega), htimer 1 (by omega), ?_⟩
  unfold nextSlide prevSlide
  rw [hnext, hprev]
  refine ⟨hcur1, rfl, by simp [hcur1, hev1], ?_, ?_, hcur1, rfl, by simp [hcur1, hev1]⟩ <;>
    simp [settle, updateSlideState, hcur1, hev1]

/-- Witness for C6 (amended): concrete 1-slide instances of the control
and timer conjuncts, the reachability hypothesis discharged at the
constructed state itself. -/
theorem degenerate_carousel_inertness_witness :
    (mkCarousel 1 {}).arrowsCreated = false ∧
    (mkCarousel 1 {}).autoplayTimer = false ∧
    (nextSlide (mkCarousel 1 {})).currentSlide = 0 := by
  have h := degenerate_carousel_inertness {}
  exact ⟨h.2.1.1, h.2.2.2.1 _ Reachable.refl, h.2.2.2.2.1⟩

/-- Counterexample to C6 as stated: on a 1-slide carousel (default
options) `next()` is not a no-op — it starts a (self-)transition and
dispatches the `slideChange` notification, and settling dispatches
`slideChanged`. -/
theorem one_slide_next_is_not_noop :
    (nextSlide (mkCarousel 1 {})).isTransitioning = true ∧
    (nextSlide (mkCarousel 1 {})).events = [Event.slideChange 0 0] ∧
    (settle (nextSlide (mkCarousel 1 {}))).events =
      [Event.slideChange 0 0, Event.slideChanged 0] := by
  decide

end PLSCarousel

namespace PLSCarousel

theorem succ_mod_eq (n k : Nat) (hn : 1 < n) :
    (k + 1) % n = if k % n + 1 < n then k % n + 1 else 0 := by
  have h1 : (k + 1) % n = (k % n + 1) % n := by
    rw [Nat.add_mod, Nat.mod_eq_of_lt hn]
  have hk : k % n < n := Nat.mod_lt _ (by omega)
  rw [h1]
  split_ifs with h
  · exact Nat.mod_eq_of_lt h
  · have heq : k % n + 1 = n := by omega
    rw [heq, Nat.mod_self]

theorem stepNext_spec (s : Carousel) (hl : s.options.loop = true)
    (hn : 1 < s.slideCount) (ht : s.isTransitioning = false)
    (hc0 : 0 ≤ s.currentSlide) (hc1 : s.currentSlide < (s.slideCount : Int)) :
    (stepNext s).currentSlide =
      (if s.currentSlide + 1 < (s.slideCount : Int) then s.currentSlide + 1 else 0) ∧
    (stepNext s).isTransitioning = false ∧
    (stepNext s).slideCount = s.slideCount ∧
    (stepNext s).options = s.options := by
  have h := goToSlide_animate_eq s (s.currentSlide + 1) ht (by omega)
  have hres : resolveIndex s.options.loop s.slideCount (s.currentSlide + 1) =
      if s.currentSlide + 1 < (s.slideCount : Int) then s.currentSlide + 1 else 0 := by
    rw [hl]
    unfold resolveIndex
    by_cases hge : s.currentSlide + 1 ≥ (s.slideCount : Int)
    · rw [if_pos hge, if_neg (show ¬s.currentSlide + 1 < (s.slideCount : Int) by omega)]
      simp
    · rw [if_neg hge, if_neg (show ¬s.currentSlide + 1 < 0 by omega),
        if_pos (show s.currentSlide + 1 < (s.slideCount : Int) by omega)]
  unfold stepNext nextSlide
  rw [h, hres]
  refine ⟨?_, ?_, ?_, ?_⟩ <;> simp [settle, updateSlideState]

theorem runNext_spec (s : Carousel) (hl : s.options.loop = true)
    (hn : 1 < s.slideCount) (ht : s.isTransitioning = false)
    (hc : s.currentSlide = 0) (k : Nat) :
    (runNext s k).currentSlide = ((k % s.slideCount : Nat) : Int) ∧
    (runNext s k).isTransitioning = false ∧
    (runNext s k).slideCount = s.slideCount ∧
    (runNext s k).options = s.options := by
  induction k with
  | zero =>
      refine ⟨?_, ht, rfl, rfl⟩
      rw [show runNext s 0 = s from rfl, hc]
      simp [Nat.zero_mod]
  | succ k ih =>
      obtain ⟨ihc, iht, ihsc, ihop⟩ := ih
      have hmod : k % s.slideCount < s.slideCount := Nat.mod_lt _ (by omega)
      have hstep := stepNext_spec (runNext s k)
        (by rw [ihop]; exact hl) (by rw [ihsc]; exact hn) iht
        (by rw [ihc]; exact_mod_cast Nat.zero_le _)
        (by rw [ihc, ihsc]; exact_mod_cast hmod)
      refine ⟨?_, hstep.2.1,
        by rw [show runNext s (k + 1) = stepNext (runNext s k) from rfl,
          hstep.2.2.1, ihsc],
        by rw [show runNext s (k + 1) = stepNext (runNext s k) from rfl,
          hstep.2.2.2, ihop]⟩
      rw [show runNext s (k + 1) = stepNext (runNext s k) from rfl, hstep.1, ihc, ihsc,
        succ_mod_eq s.slideCount k hn]
      by_cases h : k % s.slideCount + 1 < s.slideCount
      · rw [if_pos (by exact_mod_cast h), if_pos h]
        push_cast
        ring
      · rw [if_neg (by exact_mod_cast h), if_neg h]
        simp

theorem settledTrace_eq (s : Carousel) (hl : s.options.loop = true)
    (hn : 1 < s.slideCount) (ht : s.isTransitioning = false)
    (hc : s.currentSlide = 0) (k : Nat) :
    settledTrace s k =
      (List.range k).map (fun j => (((j + 1) % s.slideCount : Nat) : Int)) := by
  unfold settledTrace
  apply List.map_congr_left
  intro j hj
  exact (runNext_spec s hl hn ht hc (j + 1)).1

theorem succ_mod_inj_on_range (n : Nat) (hn : 1 < n) (j1 j2 : Nat)
    (h1 : j1 < n) (h2 : j2 < n) (h : (j1 + 1) % n = (j2 + 1) % n) : j1 = j2 := by
  rw [succ_mod_eq n j1 hn, succ_mod_eq n j2 hn, Nat.mod_eq_of_lt h1,
    Nat.mod_eq_of_lt h2] at h
  split_ifs at h <;> omega

/-- Claim C3: for every carousel with `slideCount > 1` and `loop` on,
settled at index 0, calling `next()` exactly `slideCount` times — each
call issued after the previous transition has settled — returns
`currentSlide` to 0, and the settled indices observed along the way
visit exactly the indices of `[0, slideCount)`, each exactly once. -/
theorem loop_round_trip (s : Carousel) (hl : s.options.loop = true)
    (hn : 1 < s.slideCount) (ht : s.isTransitioning = false)
    (hc : s.currentSlide = 0) :
    (runNext s s.slideCount).currentSlide = 0 ∧
    (settledTrace s s.slideCount).Nodup ∧
    (∀ i : Int, i ∈ settledTrace s s.slideCount ↔
      0 ≤ i ∧ i < (s.slideCount : Int)) := by
  have htr := settledTrace_eq s hl hn ht hc s.slideCount
  refine ⟨?_, ?_, fun i => ?_⟩
  · rw [(runNext_spec s hl hn ht hc s.slideCount).1, Nat.mod_self]
    rfl
  · rw [htr]
    refine (List.nodup_range _).map_on ?_
    intro j1 hj1 j2 hj2 hf
    simp only [List.mem_range] at hj1 hj2
    have : (j1 + 1) % s.slideCount = (j2 + 1) % s.slideCount := by exact_mod_cast hf
    exact succ_mod_inj_on_range s.slideCount hn j1 j2 hj1 hj2 this
  · rw [htr]
    constructor
    · intro hmem
      simp only [List.mem_map, List.mem_range] at hmem
      obtain ⟨j, hj, hji⟩ := hmem
      have hlt : (j + 1) % s.slideCount < s.slideCount := Nat.mod_lt _ (by omega)
      constructor
      · rw [← hji]; exact_mod_cast Nat.zero_le _
      · rw [← hji]; exact_mod_cast hlt
    · rintro ⟨hi0, hi1⟩
      simp only [List.mem_map, List.mem_range]
      by_cases hz : i = 0
      · refine ⟨s.slideCount - 1, by omega, ?_⟩
        have : s.slideCount - 1 + 1 = s.slideCount := by omega
        rw [this, Nat.mod_self, hz]
        rfl
      · refine ⟨i.toNat - 1, by omega, ?_⟩
        have h1 : i.toNat - 1 + 1 = i.toNat := by omega
        rw [h1, Nat.mod_eq_of_lt (by omega)]
        omega

/-- Witness for C3: on a fresh 4-slide looping carousel, four
settled `next()` rounds return the index to 0 after visiting 1, 2, 3. -/
theorem loop_round_trip_witness :
    (runNext (mkCarousel 4 {}) 4).currentSlide = 0 ∧
    (settledTrace (mkCarousel 4 {}) 4).Nodup ∧
    ((2 : Int) ∈ settledTrace (mkCarousel 4 {}) 4) := by
  have h := loop_round_trip (mkCarousel 4 {}) (by decide) (by decide) (by decide)
    (by decide)
  refine ⟨?_, h.2.1, (h.2.2 2).mpr (by decide)⟩
  have := h.1
  simpa using this

end PLSCarousel
